import Mathlib

/-!
Verification of the dynamic-UI synchronization layer of the test-automation
repository: the page-object methods of tests/pages/qa_jobs_page.py
(retry_on_stale_element, _ensure_department_not_all, _wait_for_jobs_stable,
filter_by_location, filter_by_department) and the locator facade of
tests/pages/base_page.py (find_element, find_elements).

Polling loops are embedded as fuel-indexed recursions: one fuel unit is one
loop iteration, and since every iteration of the Python loops sleeps for one
second, the iteration index also measures elapsed seconds.  The external
browser is modelled as a function from the sample index to the observation
the driver would deliver at that sample (a read result, a list of job cards,
an element, ...).
-/

namespace InsiderTestOps

/-- Python's substring containment test on strings: `needle in hay`. -/
def strContains (hay needle : String) : Bool :=
  hay.toList.tails.any (fun t => needle.toList.isPrefixOf t)

/-- Python truthiness of an optional string argument (`None` and `""` are falsy). -/
def pyTruthy : Option String → Bool
  | none => false
  | some s => s != ""

/-- Python's `str.strip()`: remove leading and trailing whitespace. -/
def pyStrip (s : String) : String :=
  String.mk (((s.toList.dropWhile Char.isWhitespace).reverse.dropWhile Char.isWhitespace).reverse)

/-! ## `_ensure_department_not_all` (qa_jobs_page.py lines 232-297)

A read of the department control either yields its text (`Except.ok`) or
raises (`Except.error`, any exception caught by the `except` arm).  The
loop polls once per second until the deadline `start + timeout`, so it runs
at most `timeout` iterations; sample `i` happens `i` seconds after start. -/

/-- Outcome of `_ensure_department_not_all`: `success i t` models `return True`
at sample `i` having observed (stripped) text `t`; `fatalLookup n e` models the
`raise` after `n` consecutive element-lookup failures at elapsed time `e`;
`timeoutFail e last` models the final `raise` at the deadline. -/
inductive GateOutcome where
  | success (sample : Nat) (text : String)
  | fatalLookup (attempts : Nat) (elapsed : Nat)
  | timeoutFail (elapsed : Nat) (lastText : Option String)
deriving DecidableEq

/-- The success test of the gate:
`if department_text and "All" not in department_text`. -/
def gateCheckOk (t : String) : Bool :=
  (t != "") && !(strContains t "All")

/-- The polling loop of `_ensure_department_not_all`.  `reads i` is what
`driver.find_element(...).text` would deliver at sample `i` (`Except.error`
when the lookup raises).  State: remaining fuel, current sample index,
`consecutive_element_failures`, `last_department_text`. -/
def ensureDeptLoop (reads : Nat → Except Unit String) (maxElementFailures : Nat) :
    Nat → Nat → Nat → Option String → GateOutcome
  | 0, i, _failures, lastText => .timeoutFail i lastText
  | remaining + 1, i, failures, lastText =>
    match reads i with
    | .ok raw =>
      let t := pyStrip raw
      if gateCheckOk t then .success i t
      else ensureDeptLoop reads maxElementFailures remaining (i + 1) 0 (some t)
    | .error _ =>
      if maxElementFailures ≤ failures + 1 then .fatalLookup (failures + 1) i
      else ensureDeptLoop reads maxElementFailures remaining (i + 1) (failures + 1) lastText

/-- Whether a modelled read raised (landed in the `except` arm). -/
def exceptFails : Except Unit String → Bool
  | .ok _ => false
  | .error _ => true

/-- `_ensure_department_not_all(timeout)`: `max_element_failures = 10`,
counters start at zero. -/
def ensure_department_not_all (reads : Nat → Except Unit String) (timeout : Nat) :
    GateOutcome :=
  ensureDeptLoop reads 10 timeout 0 0 none

/-! ## `_wait_for_jobs_stable` (qa_jobs_page.py lines 299-378) -/

instance {ε α : Type} [DecidableEq ε] [DecidableEq α] : DecidableEq (Except ε α) := fun a b =>
  match a, b with
  | .ok x, .ok y =>
    if h : x = y then isTrue (by rw [h]) else isFalse (fun hh => h (Except.ok.inj hh))
  | .ok _, .error _ => isFalse (fun hh => Except.noConfusion hh)
  | .error _, .ok _ => isFalse (fun hh => Except.noConfusion hh)
  | .error u, .error v =>
    if h : u = v then isTrue (by rw [h]) else isFalse (fun hh => h (Except.error.inj hh))

/-- A rendered job card as seen by the matching loop: reading its department
or location text can raise (caught by `except Exception: continue`). -/
structure JobCard where
  deptRead : Except Unit String
  locRead : Except Unit String
deriving DecidableEq

/-- `job.find_element(...).text if expected_... else None`: the field is read
only when the criterion is truthy. -/
def readIf (crit : Option String) (r : Except Unit String) : Except Unit (Option String) :=
  if pyTruthy crit then r.map some else .ok none

/-- `department_match = (not expected_department) or (expected_department in department)`. -/
def departmentMatch (expDept : Option String) (d : Option String) : Bool :=
  !pyTruthy expDept || strContains (d.getD "") (expDept.getD "")

/-- `location_match = (not expected_location) or (expected_location == location)`. -/
def locationMatch (expLoc : Option String) (l : Option String) : Bool :=
  !pyTruthy expLoc || ((expLoc.getD "") == (l.getD ""))

/-- One iteration of the `for job in jobs` body: `none` when a read raised
(the card is skipped), otherwise the computed match value. -/
def cardMatch (expDept expLoc : Option String) (c : JobCard) : Option Bool :=
  match readIf expDept c.deptRead, readIf expLoc c.locRead with
  | .ok d, .ok l => some (departmentMatch expDept d && locationMatch expLoc l)
  | _, _ => none

/-- The `for job in jobs` loop computing `matches` (breaks at the first
matching card; skipped or non-matching cards leave `matches` untouched). -/
def anyCardMatches (expDept expLoc : Option String) : List JobCard → Bool
  | [] => false
  | c :: rest =>
    match cardMatch expDept expLoc c with
    | some true => true
    | _ => anyCardMatches expDept expLoc rest

/-- No-criteria branch of `_wait_for_jobs_stable`: only the card count is
sampled.  State: fuel, sample index, `stable_count` (`none` initially),
`stable_checks`.  Returns `some i` for `return True` at sample `i`,
`none` for `return False` at the deadline. -/
def jobsStableNoCritLoop (counts : Nat → Nat) (maxStableChecks : Nat) :
    Nat → Nat → Option Nat → Nat → Option Nat
  | 0, _i, _, _ => none
  | remaining + 1, i, stableCount, stableChecks =>
    let jobCount := counts i
    let st : Nat × Nat :=
      match stableCount with
      | none => (jobCount, 1)
      | some c => if jobCount = c ∧ 0 < jobCount then (c, stableChecks + 1) else (jobCount, 1)
    if maxStableChecks ≤ st.2 then some i
    else jobsStableNoCritLoop counts maxStableChecks remaining (i + 1) (some st.1) st.2

/-- Criteria branch of `_wait_for_jobs_stable`: the counter increments
whenever the count is unchanged (`elif job_count == stable_count`, no
positivity test), and success additionally requires `matches`. -/
def jobsStableCritLoop (samples : Nat → List JobCard) (expDept expLoc : Option String)
    (maxStableChecks : Nat) : Nat → Nat → Option Nat → Nat → Option Nat
  | 0, _i, _, _ => none
  | remaining + 1, i, stableCount, stableChecks =>
    let jobs := samples i
    let jobCount := jobs.length
    let mtch := anyCardMatches expDept expLoc jobs
    let st : Nat × Nat :=
      match stableCount with
      | none => (jobCount, 1)
      | some c => if jobCount = c then (c, stableChecks + 1) else (jobCount, 1)
    if mtch ∧ maxStableChecks ≤ st.2 then some i
    else jobsStableCritLoop samples expDept expLoc maxStableChecks remaining (i + 1) (some st.1) st.2

/-- `_wait_for_jobs_stable(expected_department, expected_location,
max_stable_checks)` with overall timeout `WAIT_TIME = 60` seconds (the
`timeout` argument here; sampling interval 1s).  The branch on
`if not expected_department and not expected_location` selects the mode. -/
def wait_for_jobs_stable (samples : Nat → List JobCard) (expDept expLoc : Option String)
    (maxStableChecks timeout : Nat) : Option Nat :=
  if !pyTruthy expDept && !pyTruthy expLoc then
    jobsStableNoCritLoop (fun i => (samples i).length) maxStableChecks timeout 0 none 0
  else
    jobsStableCritLoop samples expDept expLoc maxStableChecks timeout 0 none 0

/-- The value of `stable_checks` after processing sample `i` in the
criteria branch, as a function of the count sequence alone. -/
def checksSeqCrit (counts : Nat → Nat) : Nat → Nat
  | 0 => 1
  | i + 1 => if counts (i + 1) = counts i then checksSeqCrit counts i + 1 else 1

/-- The value of `stable_checks` after processing sample `i` in the
no-criteria branch (increment also requires a positive count). -/
def checksSeqNoCrit (counts : Nat → Nat) : Nat → Nat
  | 0 => 1
  | i + 1 => if counts (i + 1) = counts i ∧ 0 < counts (i + 1) then checksSeqNoCrit counts i + 1 else 1

/-! ## `retry_on_stale_element` (qa_jobs_page.py lines 14-36)

The wrapped operation is modelled as `op : Nat → Except PyExc α`:
`op attempt` is the outcome of the `attempt`-th invocation of `func`. -/

/-- The exceptions relevant to the wrapper: `StaleElementReferenceException`
(the only one its `except` arm catches) and any other exception. -/
inductive PyExc where
  | stale (msg : String)
  | other (msg : String)
deriving DecidableEq

/-- The `for attempt in range(max_attempts)` loop of the wrapper.  Fuel
counts the remaining iterations (`max_attempts - attempt`); falling off the
loop is `return None`.  A stale raise at `attempt == max_attempts - 1` is
re-raised; any other exception is not caught and propagates at once. -/
def retryAttemptLoop (op : Nat → Except PyExc α) (maxAttempts : Nat) :
    Nat → Nat → Except PyExc (Option α)
  | 0, _attempt => .ok none
  | remaining + 1, attempt =>
    match op attempt with
    | .ok a => .ok (some a)
    | .error (.stale m) =>
      if attempt = maxAttempts - 1 then .error (.stale m)
      else retryAttemptLoop op maxAttempts remaining (attempt + 1)
    | .error (.other m) => .error (.other m)

/-- `retry_on_stale_element(max_attempts)` applied to an operation. -/
def retry_on_stale_element (maxAttempts : Nat) (op : Nat → Except PyExc α) :
    Except PyExc (Option α) :=
  retryAttemptLoop op maxAttempts maxAttempts 0

/-- Number of times the wrapped operation is invoked, mirroring the call
pattern of `retryAttemptLoop` (each iteration calls `func` exactly once). -/
def retryCallsLoop (op : Nat → Except PyExc α) (maxAttempts : Nat) : Nat → Nat → Nat
  | 0, _attempt => 0
  | remaining + 1, attempt =>
    match op attempt with
    | .ok _ => 1
    | .error (.stale _) =>
      if attempt = maxAttempts - 1 then 1
      else 1 + retryCallsLoop op maxAttempts remaining (attempt + 1)
    | .error (.other _) => 1

/-- Invocation count of the wrapped operation over a whole wrapper run. -/
def retryCalls (maxAttempts : Nat) (op : Nat → Except PyExc α) : Nat :=
  retryCallsLoop op maxAttempts maxAttempts 0

/-- Number of `time.sleep(0.5)` backoffs executed, mirroring
`retryAttemptLoop` (a sleep happens only on a caught, non-final stale). -/
def retrySleepsLoop (op : Nat → Except PyExc α) (maxAttempts : Nat) : Nat → Nat → Nat
  | 0, _attempt => 0
  | remaining + 1, attempt =>
    match op attempt with
    | .ok _ => 0
    | .error (.stale _) =>
      if attempt = maxAttempts - 1 then 0
      else 1 + retrySleepsLoop op maxAttempts remaining (attempt + 1)
    | .error (.other _) => 0

/-- Backoff-sleep count over a whole wrapper run. -/
def retrySleeps (maxAttempts : Nat) (op : Nat → Except PyExc α) : Nat :=
  retrySleepsLoop op maxAttempts maxAttempts 0

/-! ## `find_element` / `find_elements` (base_page.py lines 26-55)

`WebDriverWait(driver, timeout).until(...)` polls the driver; we model the
driver by what each poll would observe and the wait by a fuel-indexed scan
that raises `TimeoutException` when the fuel (the timeout) is exhausted. -/

/-- An element handle returned by the driver. -/
structure Element where
  elemId : Nat
deriving DecidableEq

/-- Errors of the facade: Selenium's `TimeoutException` (raised by
`WebDriverWait.until`) and `NoSuchElementException` (the NotFound type). -/
inductive SelError where
  | timeoutExc
  | noSuchElement (msg : String)
deriving DecidableEq

/-- `wait.until(EC.presence_of_element_located(locator))`: `polls i` is the
element the driver finds at poll `i`, if any. -/
def untilPresent (polls : Nat → Option Element) : Nat → Nat → Except SelError Element
  | 0, _i => .error .timeoutExc
  | fuel + 1, i =>
    match polls i with
    | some e => .ok e
    | none => untilPresent polls fuel (i + 1)

/-- `wait.until(EC.presence_of_all_elements_located(locator))`: the wait
keeps polling while the found list is empty (falsy) and raises
`TimeoutException` at the deadline. -/
def untilAllPresent (polls : Nat → List Element) : Nat → Nat → Except SelError (List Element)
  | 0, _i => .error .timeoutExc
  | fuel + 1, i =>
    match polls i with
    | [] => untilAllPresent polls fuel (i + 1)
    | e :: es => .ok (e :: es)

/-- `BasePage.find_element`: the `except TimeoutException` arm converts the
timeout into `NoSuchElementException(f"Element not found: {locator}")`. -/
def find_element (locator : String) (polls : Nat → Option Element) (timeout : Nat) :
    Except SelError Element :=
  match untilPresent polls timeout 0 with
  | .error .timeoutExc => .error (.noSuchElement ("Element not found: " ++ locator))
  | r => r

/-- `BasePage.find_elements`: no `try`/`except` — the wait's result (or its
`TimeoutException`) is returned/propagated as is. -/
def find_elements (_locator : String) (polls : Nat → List Element) (timeout : Nat) :
    Except SelError (List Element) :=
  untilAllPresent polls timeout 0

/-- Whether a facade result failed with the NotFound type
(`NoSuchElementException`). -/
def isNoSuchElementErr : Except SelError α → Bool
  | .error (.noSuchElement _) => true
  | _ => false

/-! ## Straight-line structure of `filter_by_location` (lines 109-178) and
`filter_by_department` (lines 180-230)

Each method body is a fixed sequence of driver interactions; we embed it as
the list of those interactions in program order. -/

/-- One observable step of a filter method. -/
inductive UIStep where
  | ensureDeptNotAll (timeout : Nat)
  | waitVisible (locator : String)
  | waitClickable (locator : String)
  | clickStep (locator : String)
  | waitPresent (locator : String)
  | waitPresentAll (locator : String)
  | waitVisibleAny (locator : String)
  | execScript (script : String)
  | dispatchMouseDown
  | dispatchMouseUp
  | dispatchClick
  | waitJobsStable (expDept expLoc : Option String) (maxStableChecks : Nat)
deriving DecidableEq

/-- Locator `LOCATION_FILTER`. -/
def LOCATION_FILTER : String := "select2-filter-by-location-container"

/-- Locator `DEPARTMENT_FILTER`. -/
def DEPARTMENT_FILTER : String := "select2-filter-by-department-container"

/-- Locator `JOB_ITEMS`. -/
def JOB_ITEMS : String := ".position-list-item"

/-- The select2 options panel selector. -/
def SELECT2_OPTIONS : String := ".select2-results__options"

/-- The select2 option items selector. -/
def SELECT2_OPTIONS_LI : String := ".select2-results__options li"

/-- The location option selector built in `filter_by_location`. -/
def locationOptionSelector (location : String) : String :=
  "li[data-select2-id*='" ++ location ++ "']"

/-- The department option xpath built in `filter_by_department`. -/
def departmentOptionSelector (department : String) : String :=
  "//li[contains(text(),'" ++ department ++ "')]"

/-- The interaction sequence of `filter_by_location(location,
expected_department)`, line by line (`self.click` is one step; the two
scroll scripts and the three event dispatches of the activation script are
kept in their in-source order). -/
def filter_by_location_trace (location expected_department : String) : List UIStep :=
  [ .ensureDeptNotAll 10,
    .waitVisible LOCATION_FILTER,
    .waitClickable LOCATION_FILTER,
    .clickStep LOCATION_FILTER,
    .waitVisible SELECT2_OPTIONS,
    .waitPresentAll SELECT2_OPTIONS_LI,
    .waitVisibleAny SELECT2_OPTIONS_LI,
    .waitPresent (locationOptionSelector location),
    .waitClickable (locationOptionSelector location),
    .execScript "return arguments[0].offsetTop;",
    .execScript "arguments[0].scrollTop = arguments[1] - 100;",
    .dispatchMouseDown,
    .dispatchMouseUp,
    .dispatchClick,
    .waitPresentAll JOB_ITEMS,
    .waitClickable JOB_ITEMS,
    .waitJobsStable (some expected_department) (some location) 3 ]

/-- The interaction sequence of `filter_by_department(department)`. -/
def filter_by_department_trace (department : String) : List UIStep :=
  [ .clickStep DEPARTMENT_FILTER,
    .waitVisible SELECT2_OPTIONS,
    .waitPresentAll SELECT2_OPTIONS_LI,
    .waitPresent (departmentOptionSelector department),
    .execScript "return arguments[0].offsetTop;",
    .execScript "arguments[0].scrollTop = arguments[1] - 100;",
    .dispatchMouseDown,
    .dispatchMouseUp,
    .dispatchClick,
    .waitPresentAll JOB_ITEMS,
    .waitClickable JOB_ITEMS,
    .waitJobsStable (some department) none 2 ]

/-- Whether a step is an invocation of the department auto-selection gate. -/
def isEnsureGate : UIStep → Bool
  | .ensureDeptNotAll _ => true
  | _ => false

/-! ## Concrete sources used by witnesses and demonstrations -/

/-- The department-text sequence of the spec's gate example, read without
failures: "× All", "× All", then "Quality Assurance" forever. -/
def demoGateReads : Nat → Except Unit String :=
  fun i => Except.ok ((["× All", "× All", "Quality Assurance"]).getD i "Quality Assurance")

/-- A card source whose every lookup raises. -/
def allFailReads : Nat → Except Unit String := fun _ => Except.error ()

/-- A read source failing nine times, then succeeding with the sentinel,
repeatedly: exercises the reset of the consecutive-failure counter. -/
def nineFailReads : Nat → Except Unit String :=
  fun i => if i % 10 = 9 then Except.ok "× All" else Except.error ()

/-- A job card matching department "Quality Assurance" and location
"Istanbul, Turkiye". -/
def demoCard : JobCard :=
  ⟨Except.ok "Quality Assurance", Except.ok "Istanbul, Turkiye"⟩

/-- A job card matching neither criterion. -/
def noMatchCard : JobCard :=
  ⟨Except.ok "Marketing", Except.ok "London, UK"⟩

/-- A card source fixed at cardinality 4 from the first sample onward. -/
def demoSamples4 : Nat → List JobCard :=
  fun _ => [demoCard, demoCard, demoCard, demoCard]

/-- A card source of constant cardinality 2 whose first two samples match
nothing and whose third contains a matching card. -/
def demoCritSamples : Nat → List JobCard :=
  fun i => if i < 2 then [noMatchCard, noMatchCard] else [noMatchCard, demoCard]

/-- An operation raising stale exactly twice, then succeeding with 42. -/
def demoStaleTwiceOp : Nat → Except PyExc Nat :=
  fun i => if i < 2 then .error (.stale ("s" ++ toString i)) else .ok 42

/-- An operation raising stale once, then a non-stale exception. -/
def demoOtherOp : Nat → Except PyExc Nat :=
  fun i => if i = 0 then .error (.stale "x") else .error (.other "boom")

/-! ## Lemmas about `retry_on_stale_element` -/

lemma retryAttemptLoop_other (op : Nat → Except PyExc α) (maxAttempts : Nat)
    (ms : Nat → String) (m : String) :
    ∀ remaining attempt j, attempt + remaining = maxAttempts → attempt ≤ j → j < maxAttempts →
    (∀ i, attempt ≤ i → i < j → op i = .error (.stale (ms i))) →
    op j = .error (.other m) →
    retryAttemptLoop op maxAttempts remaining attempt = .error (.other m) ∧
    retryCallsLoop op maxAttempts remaining attempt = j - attempt + 1 ∧
    retrySleepsLoop op maxAttempts remaining attempt = j - attempt := by
  intro remaining
  induction remaining with
  | zero => intro attempt j hsum hle hlt _ _; omega
  | succ r ih =>
    intro attempt j hsum hle hlt hstale hother
    rcases Nat.eq_or_lt_of_le hle with heq | hstrict
    · subst heq
      rw [retryAttemptLoop, retryCallsLoop, retrySleepsLoop, hother]
      have hc : attempt - attempt + 1 = 1 := by omega
      have hs : attempt - attempt = 0 := by omega
      rw [hc, hs]
      exact ⟨rfl, rfl, rfl⟩
    · have hst : op attempt = .error (.stale (ms attempt)) := hstale attempt le_rfl hstrict
      have hne : ¬ attempt = maxAttempts - 1 := by omega
      rw [retryAttemptLoop, retryCallsLoop, retrySleepsLoop, hst]
      simp only [hne, if_false]
      obtain ⟨h1, h2, h3⟩ := ih (attempt + 1) j (by omega) (by omega) hlt
        (fun i hi1 hi2 => hstale i (by omega) hi2) hother
      exact ⟨h1, by omega, by omega⟩

/-! ## Lemmas about the locator facade -/

lemma untilPresent_error (polls : Nat → Option Element) :
    ∀ fuel i w, untilPresent polls fuel i = .error w → w = .timeoutExc := by
  intro fuel
  induction fuel with
  | zero =>
    intro i w h
    rw [untilPresent] at h
    exact (Except.error.inj h).symm
  | succ f ih =>
    intro i w h
    rw [untilPresent] at h
    cases hp : polls i with
    | some e => rw [hp] at h; exact absurd h (by simp)
    | none => rw [hp] at h; exact ih (i + 1) w h

lemma untilPresent_ok (polls : Nat → Option Element) :
    ∀ fuel i e, untilPresent polls fuel i = .ok e → ∃ k, polls k = some e := by
  intro fuel
  induction fuel with
  | zero => intro i e h; exact absurd h (by simp [untilPresent])
  | succ f ih =>
    intro i e h
    rw [untilPresent] at h
    cases hp : polls i with
    | some x =>
      rw [hp] at h
      exact ⟨i, by rw [hp, Except.ok.inj h]⟩
    | none => rw [hp] at h; exact ih (i + 1) e h

lemma untilAllPresent_ok (polls : Nat → List Element) :
    ∀ fuel i l, untilAllPresent polls fuel i = .ok l → l ≠ [] := by
  intro fuel
  induction fuel with
  | zero => intro i l h; exact absurd h (by simp [untilAllPresent])
  | succ f ih =>
    intro i l h
    rw [untilAllPresent] at h
    cases hp : polls i with
    | nil => rw [hp] at h; exact ih (i + 1) l h
    | cons e es => rw [hp] at h; rw [← Except.ok.inj h]; simp

lemma untilAllPresent_error (polls : Nat → List Element) :
    ∀ fuel i w, untilAllPresent polls fuel i = .error w → w = .timeoutExc := by
  intro fuel
  induction fuel with
  | zero => intro i w h; rw [untilAllPresent] at h; exact (Except.error.inj h).symm
  | succ f ih =>
    intro i w h
    rw [untilAllPresent] at h
    cases hp : polls i with
    | nil => rw [hp] at h; exact ih (i + 1) w h
    | cons e es => rw [hp] at h; exact absurd h (by simp)

/-! ## Lemmas about `_wait_for_jobs_stable` -/

lemma checksSeqNoCrit_zero (counts : Nat → Nat) : checksSeqNoCrit counts 0 = 1 := by
  rw [checksSeqNoCrit]

lemma checksSeqCrit_zero (counts : Nat → Nat) : checksSeqCrit counts 0 = 1 := by
  rw [checksSeqCrit]

lemma checksSeqNoCrit_le (counts : Nat → Nat) : ∀ j, checksSeqNoCrit counts j ≤ j + 1 := by
  intro j
  induction j with
  | zero => rw [checksSeqNoCrit]
  | succ n ih =>
    rw [checksSeqNoCrit]
    split
    · omega
    · omega

lemma checksSeqCrit_le (counts : Nat → Nat) : ∀ j, checksSeqCrit counts j ≤ j + 1 := by
  intro j
  induction j with
  | zero => rw [checksSeqCrit]
  | succ n ih =>
    rw [checksSeqCrit]
    split
    · omega
    · omega

lemma checksSeqNoCrit_streak (counts : Nat → Nat) :
    ∀ j m, 2 ≤ m → m ≤ checksSeqNoCrit counts j →
    0 < counts j ∧ ∀ k, k ≤ j → j < k + m → counts k = counts j := by
  intro j
  induction j with
  | zero =>
    intro m hm2 hmc
    rw [checksSeqNoCrit] at hmc
    omega
  | succ n ih =>
    intro m hm2 hmc
    rw [checksSeqNoCrit] at hmc
    by_cases hc : counts (n + 1) = counts n ∧ 0 < counts (n + 1)
    · rw [if_pos hc] at hmc
      refine ⟨hc.2, fun k hk1 hk2 => ?_⟩
      rcases Nat.eq_or_lt_of_le hk1 with he | hl
      · rw [he]
      · by_cases hm3 : 3 ≤ m
        · obtain ⟨-, hstreak⟩ := ih (m - 1) (by omega) (by omega)
          rw [hc.1]
          exact hstreak k (by omega) (by omega)
        · have hkn : k = n := by omega
          rw [hkn, hc.1]
    · rw [if_neg hc] at hmc
      omega

lemma jobsStableNoCritLoop_some_iff (counts : Nat → Nat) (maxChecks : Nat) :
    ∀ remaining i' j sc ck, sc = counts i' → ck = checksSeqNoCrit counts i' →
    (jobsStableNoCritLoop counts maxChecks remaining (i' + 1) (some sc) ck = some j ↔
      (i' + 1 ≤ j ∧ j < i' + 1 + remaining ∧ maxChecks ≤ checksSeqNoCrit counts j ∧
        ∀ k, i' + 1 ≤ k → k < j → checksSeqNoCrit counts k < maxChecks)) := by
  intro remaining
  induction remaining with
  | zero =>
    intro i' j sc ck hsc hck
    rw [jobsStableNoCritLoop]
    constructor
    · intro h; exact absurd h (by simp)
    · rintro ⟨h1, h2, -⟩; omega
  | succ r ih =>
    intro i' j sc ck hsc hck
    subst hsc
    subst hck
    rw [jobsStableNoCritLoop]
    have hstep :
        (if counts (i' + 1) = counts i' ∧ 0 < counts (i' + 1)
          then (counts i', checksSeqNoCrit counts i' + 1)
          else (counts (i' + 1), 1))
        = (counts (i' + 1), checksSeqNoCrit counts (i' + 1)) := by
      by_cases hc : counts (i' + 1) = counts i' ∧ 0 < counts (i' + 1)
      · rw [if_pos hc, checksSeqNoCrit, if_pos hc, hc.1]
      · rw [if_neg hc, checksSeqNoCrit, if_neg hc]
    rw [hstep]
    dsimp only []
    by_cases hcond : maxChecks ≤ checksSeqNoCrit counts (i' + 1)
    · rw [if_pos hcond]
      constructor
      · intro h
        obtain rfl := Option.some.inj h
        exact ⟨le_rfl, by omega, hcond, fun k hk1 hk2 => absurd hk2 (by omega)⟩
      · rintro ⟨h1, h2, h3, h4⟩
        have hj : j = i' + 1 := by
          by_contra hne
          have hlt : i' + 1 < j := by omega
          have := h4 (i' + 1) le_rfl hlt
          omega
        rw [hj]
    · rw [if_neg hcond]
      rw [ih (i' + 1) j (counts (i' + 1)) (checksSeqNoCrit counts (i' + 1)) rfl rfl]
      constructor
      · rintro ⟨h1, h2, h3, h4⟩
        refine ⟨by omega, by omega, h3, fun k hk1 hk2 => ?_⟩
        rcases Nat.eq_or_lt_of_le hk1 with he | hl
        · rw [← he]; omega
        · exact h4 k hl hk2
      · rintro ⟨h1, h2, h3, h4⟩
        have hne : i' + 1 ≠ j := by
          intro he
          rw [← he] at h3
          omega
        exact ⟨by omega, by omega, h3, fun k hk1 hk2 => h4 k (by omega) hk2⟩

lemma jobsStableNoCrit_run_iff (counts : Nat → Nat) (maxChecks timeout j : Nat) :
    jobsStableNoCritLoop counts maxChecks timeout 0 none 0 = some j ↔
      (j < timeout ∧ maxChecks ≤ checksSeqNoCrit counts j ∧
        ∀ k, k < j → checksSeqNoCrit counts k < maxChecks) := by
  cases timeout with
  | zero =>
    rw [jobsStableNoCritLoop]
    constructor
    · intro h; exact absurd h (by simp)
    · rintro ⟨h1, -⟩; omega
  | succ t =>
    rw [jobsStableNoCritLoop]
    dsimp only []
    by_cases hcond : maxChecks ≤ 1
    · rw [if_pos hcond]
      constructor
      · intro h
        obtain rfl := Option.some.inj h
        refine ⟨by omega, ?_, fun k hk => absurd hk (by omega)⟩
        rw [checksSeqNoCrit_zero]
        exact hcond
      · rintro ⟨h1, h2, h3⟩
        have hj : j = 0 := by
          by_contra hne
          have := h3 0 (by omega)
          rw [checksSeqNoCrit_zero] at this
          omega
        rw [hj]
    · rw [if_neg hcond]
      rw [jobsStableNoCritLoop_some_iff counts maxChecks t 0 j (counts 0) 1 rfl
        (checksSeqNoCrit_zero counts).symm]
      constructor
      · rintro ⟨h1, h2, h3, h4⟩
        refine ⟨by omega, h3, fun k hk => ?_⟩
        rcases Nat.eq_zero_or_pos k with hk0 | hkpos
        · rw [hk0, checksSeqNoCrit_zero]
          omega
        · exact h4 k (by omega) hk
      · rintro ⟨h1, h2, h3⟩
        have hj0 : j ≠ 0 := by
          intro he
          rw [he, checksSeqNoCrit_zero] at h2
          omega
        exact ⟨by omega, by omega, h2, fun k hk1 hk2 => h3 k hk2⟩

/-- Success condition of the criteria branch at sample `k`: some sampled
card matches and the stability counter has reached the threshold. -/
def critSuccessAt (samples : Nat → List JobCard) (expDept expLoc : Option String)
    (maxChecks k : Nat) : Prop :=
  anyCardMatches expDept expLoc (samples k) = true ∧
    maxChecks ≤ checksSeqCrit (fun i => (samples i).length) k

lemma jobsStableCritLoop_some_iff (samples : Nat → List JobCard)
    (expDept expLoc : Option String) (maxChecks : Nat) :
    ∀ remaining i' j sc ck, sc = (samples i').length →
    ck = checksSeqCrit (fun i => (samples i).length) i' →
    (jobsStableCritLoop samples expDept expLoc maxChecks remaining (i' + 1) (some sc) ck
        = some j ↔
      (i' + 1 ≤ j ∧ j < i' + 1 + remaining ∧ critSuccessAt samples expDept expLoc maxChecks j ∧
        ∀ k, i' + 1 ≤ k → k < j → ¬ critSuccessAt samples expDept expLoc maxChecks k)) := by
  intro remaining
  induction remaining with
  | zero =>
    intro i' j sc ck hsc hck
    rw [jobsStableCritLoop]
    constructor
    · intro h; exact absurd h (by simp)
    · rintro ⟨h1, h2, -⟩; omega
  | succ r ih =>
    intro i' j sc ck hsc hck
    subst hsc
    subst hck
    rw [jobsStableCritLoop]
    have hstep :
        (if (samples (i' + 1)).length = (samples i').length
          then ((samples i').length, checksSeqCrit (fun i => (samples i).length) i' + 1)
          else ((samples (i' + 1)).length, 1))
        = ((samples (i' + 1)).length, checksSeqCrit (fun i => (samples i).length) (i' + 1)) := by
      by_cases hc : (samples (i' + 1)).length = (samples i').length
      · rw [if_pos hc]
        have hcs : checksSeqCrit (fun i => (samples i).length) (i' + 1)
            = checksSeqCrit (fun i => (samples i).length) i' + 1 := by
          simp only [checksSeqCrit]
          rw [if_pos hc]
        rw [hcs, hc]
      · rw [if_neg hc]
        have hcs : checksSeqCrit (fun i => (samples i).length) (i' + 1) = 1 := by
          simp only [checksSeqCrit]
          rw [if_neg hc]
        rw [hcs]
    rw [hstep]
    dsimp only []
    by_cases hcond : anyCardMatches expDept expLoc (samples (i' + 1)) = true ∧
        maxChecks ≤ checksSeqCrit (fun i => (samples i).length) (i' + 1)
    · rw [if_pos hcond]
      constructor
      · intro h
        obtain rfl := Option.some.inj h
        exact ⟨le_rfl, by omega, hcond, fun k hk1 hk2 => absurd hk2 (by omega)⟩
      · rintro ⟨h1, h2, h3, h4⟩
        have hj : j = i' + 1 := by
          by_contra hne
          have hlt : i' + 1 < j := by omega
          exact h4 (i' + 1) le_rfl hlt hcond
        rw [hj]
    · rw [if_neg hcond]
      rw [ih (i' + 1) j ((samples (i' + 1)).length)
        (checksSeqCrit (fun i => (samples i).length) (i' + 1)) rfl rfl]
      constructor
      · rintro ⟨h1, h2, h3, h4⟩
        refine ⟨by omega, by omega, h3, fun k hk1 hk2 => ?_⟩
        rcases Nat.eq_or_lt_of_le hk1 with he | hl
        · rw [← he]; exact hcond
        · exact h4 k hl hk2
      · rintro ⟨h1, h2, h3, h4⟩
        have hne : i' + 1 ≠ j := by
          intro he
          rw [← he] at h3
          exact hcond h3
        exact ⟨by omega, by omega, h3, fun k hk1 hk2 => h4 k (by omega) hk2⟩

lemma jobsStableCrit_run_iff (samples : Nat → List JobCard)
    (expDept expLoc : Option String) (maxChecks timeout j : Nat) :
    jobsStableCritLoop samples expDept expLoc maxChecks timeout 0 none 0 = some j ↔
      (j < timeout ∧ critSuccessAt samples expDept expLoc maxChecks j ∧
        ∀ k, k < j → ¬ critSuccessAt samples expDept expLoc maxChecks k) := by
  cases timeout with
  | zero =>
    rw [jobsStableCritLoop]
    constructor
    · intro h; exact absurd h (by simp)
    · rintro ⟨h1, -⟩; omega
  | succ t =>
    rw [jobsStableCritLoop]
    dsimp only []
    by_cases hcond : anyCardMatches expDept expLoc (samples 0) = true ∧ maxChecks ≤ 1
    · rw [if_pos hcond]
      constructor
      · intro h
        obtain rfl := Option.some.inj h
        refine ⟨by omega, ⟨hcond.1, ?_⟩, fun k hk => absurd hk (by omega)⟩
        rw [checksSeqCrit_zero]
        exact hcond.2
      · rintro ⟨h1, h2, h3⟩
        have hj : j = 0 := by
          by_contra hne
          refine h3 0 (by omega) ⟨hcond.1, ?_⟩
          rw [checksSeqCrit_zero]
          exact hcond.2
        rw [hj]
    · rw [if_neg hcond]
      rw [jobsStableCritLoop_some_iff samples expDept expLoc maxChecks t 0 j
        ((samples 0).length) 1 rfl (checksSeqCrit_zero (fun i => (samples i).length)).symm]
      constructor
      · rintro ⟨h1, h2, h3, h4⟩
        refine ⟨by omega, h3, fun k hk => ?_⟩
        rcases Nat.eq_zero_or_pos k with hk0 | hkpos
        · rw [hk0]
          rintro ⟨hm, hck⟩
          rw [checksSeqCrit_zero] at hck
          exact hcond ⟨hm, hck⟩
        · exact h4 k (by omega) hk
      · rintro ⟨h1, h2, h3⟩
        have hj0 : j ≠ 0 := by
          intro he
          rw [he] at h2
          obtain ⟨hm, hck⟩ := h2
          rw [checksSeqCrit_zero] at hck
          exact hcond ⟨hm, hck⟩
        exact ⟨by omega, by omega, h2, fun k hk1 hk2 => h3 k hk2⟩

lemma wait_for_jobs_stable_crit_eq (samples : Nat → List JobCard)
    (expDept expLoc : Option String) (maxChecks timeout : Nat)
    (hcrit : (pyTruthy expDept || pyTruthy expLoc) = true) :
    wait_for_jobs_stable samples expDept expLoc maxChecks timeout
      = jobsStableCritLoop samples expDept expLoc maxChecks timeout 0 none 0 := by
  have hfalse : (!pyTruthy expDept && !pyTruthy expLoc) = false := by
    cases hd : pyTruthy expDept <;> cases hl : pyTruthy expLoc <;> simp_all
  rw [wait_for_jobs_stable, hfalse]
  rfl

/-! ## Lemmas about `_ensure_department_not_all` -/

lemma ensureDeptLoop_success_sound (reads : Nat → Except Unit String) (maxFail : Nat) :
    ∀ remaining i failures lastText j t,
    ensureDeptLoop reads maxFail remaining i failures lastText = .success j t →
    gateCheckOk t = true ∧ ∃ raw, reads j = .ok raw ∧ t = pyStrip raw := by
  intro remaining
  induction remaining with
  | zero =>
    intro i f lt j t h
    rw [ensureDeptLoop] at h
    exact absurd h (by simp)
  | succ r ih =>
    intro i f lt j t h
    rw [ensureDeptLoop] at h
    cases hr : reads i with
    | ok raw =>
      rw [hr] at h
      dsimp only [] at h
      by_cases hg : gateCheckOk (pyStrip raw) = true
      · rw [if_pos hg] at h
        obtain ⟨hij, hts⟩ := GateOutcome.success.inj h
        refine ⟨hts ▸ hg, raw, ?_, hts.symm⟩
        rw [← hij]
        exact hr
      · rw [if_neg hg] at h
        exact ih (i + 1) 0 (some (pyStrip raw)) j t h
    | error u =>
      rw [hr] at h
      dsimp only [] at h
      by_cases hf : maxFail ≤ f + 1
      · rw [if_pos hf] at h
        exact absurd h (by simp)
      · rw [if_neg hf] at h
        exact ih (i + 1) (f + 1) lt j t h

lemma ensureDeptLoop_allok_iff (rs : Nat → String) (maxFail : Nat) :
    ∀ remaining i failures lastText j t,
    (ensureDeptLoop (fun k => .ok (rs k)) maxFail remaining i failures lastText = .success j t ↔
      (i ≤ j ∧ j < i + remaining ∧ t = pyStrip (rs j) ∧ gateCheckOk (pyStrip (rs j)) = true ∧
        ∀ k, i ≤ k → k < j → gateCheckOk (pyStrip (rs k)) = false)) := by
  intro remaining
  induction remaining with
  | zero =>
    intro i f lt j t
    rw [ensureDeptLoop]
    constructor
    · intro h; exact absurd h (by simp)
    · rintro ⟨h1, h2, -⟩; omega
  | succ r ih =>
    intro i f lt j t
    rw [ensureDeptLoop]
    dsimp only []
    by_cases hg : gateCheckOk (pyStrip (rs i)) = true
    · rw [if_pos hg]
      constructor
      · intro h
        obtain ⟨hij, hts⟩ := GateOutcome.success.inj h
        subst hij
        exact ⟨le_rfl, by omega, hts.symm, hg, fun k hk1 hk2 => absurd hk2 (by omega)⟩
      · rintro ⟨h1, h2, h3, h4, h5⟩
        have hj : j = i := by
          by_contra hne
          have hlt : i < j := by omega
          have := h5 i le_rfl hlt
          rw [hg] at this
          exact Bool.noConfusion this
        subst hj
        rw [h3]
    · rw [if_neg hg]
      rw [ih (i + 1) 0 (some (pyStrip (rs i))) j t]
      constructor
      · rintro ⟨h1, h2, h3, h4, h5⟩
        refine ⟨by omega, by omega, h3, h4, fun k hk1 hk2 => ?_⟩
        rcases Nat.eq_or_lt_of_le hk1 with he | hl
        · rw [← he]
          exact Bool.eq_false_iff.mpr hg
        · exact h5 k hl hk2
      · rintro ⟨h1, h2, h3, h4, h5⟩
        have hij : i ≠ j := by
          intro he
          rw [he] at hg
          exact hg h4
        exact ⟨by omega, by omega, h3, h4, fun k hk1 hk2 => h5 k (by omega) hk2⟩

lemma ensureDeptLoop_fatal (reads : Nat → Except Unit String) (maxFail : Nat) :
    ∀ remaining i failures lastText n e,
    failures < maxFail →
    (∀ k, k < i → i ≤ k + failures → exceptFails (reads k) = true) →
    ensureDeptLoop reads maxFail remaining i failures lastText = .fatalLookup n e →
    n = maxFail ∧ i ≤ e ∧ e < i + remaining ∧ i + maxFail ≤ e + 1 + failures ∧
      ∀ k, k ≤ e → e < k + maxFail → exceptFails (reads k) = true := by
  intro remaining
  induction remaining with
  | zero =>
    intro i f lt n e _ _ h
    rw [ensureDeptLoop] at h
    exact absurd h (by simp)
  | succ r ih =>
    intro i f lt n e hflt hinv h
    rw [ensureDeptLoop] at h
    cases hr : reads i with
    | ok raw =>
      rw [hr] at h
      dsimp only [] at h
      by_cases hg : gateCheckOk (pyStrip raw) = true
      · rw [if_pos hg] at h
        exact absurd h (by simp)
      · rw [if_neg hg] at h
        obtain ⟨hn, h2, h3, h4, h5⟩ := ih (i + 1) 0 (some (pyStrip raw)) n e
          (by omega) (fun k hk1 hk2 => absurd hk2 (by omega)) h
        exact ⟨hn, by omega, by omega, by omega, h5⟩
    | error u =>
      rw [hr] at h
      dsimp only [] at h
      by_cases hf : maxFail ≤ f + 1
      · rw [if_pos hf] at h
        obtain ⟨hn, he⟩ := GateOutcome.fatalLookup.inj h
        refine ⟨by omega, by omega, by omega, by omega, fun k hk1 hk2 => ?_⟩
        rcases Nat.lt_or_ge k i with hki | hki
        · exact hinv k (by omega) (by omega)
        · have hkeq : k = i := by omega
          rw [hkeq, hr]
          rfl
      · rw [if_neg hf] at h
        have hinv2 : ∀ k, k < i + 1 → i + 1 ≤ k + (f + 1) → exceptFails (reads k) = true := by
          intro k hk1 hk2
          rcases Nat.lt_or_ge k i with hki | hki
          · exact hinv k (by omega) (by omega)
          · have hkeq : k = i := by omega
            rw [hkeq, hr]
            rfl
        obtain ⟨hn, h2, h3, h4, h5⟩ := ih (i + 1) (f + 1) lt n e (by omega) hinv2 h
        exact ⟨hn, by omega, by omega, by omega, h5⟩

/-! ## Claim theorems: department auto-selection gate -/

/-- C2: the auto-selection gate returns success exactly when an observed
(stripped) department text is non-empty and does not contain "All" as a
substring; on the observed sequence "× All", "× All", "Quality Assurance"
sampled once per second it succeeds at the 3rd sample (index 2, about 2
seconds elapsed) and not before. -/
theorem claim_C2_gate_success_condition :
    (∀ (reads : Nat → Except Unit String) (timeout j : Nat) (t : String),
      ensure_department_not_all reads timeout = .success j t →
      t ≠ "" ∧ strContains t "All" = false ∧ ∃ raw, reads j = .ok raw ∧ t = pyStrip raw) ∧
    (∀ (rs : Nat → String) (timeout j : Nat) (t : String),
      ensure_department_not_all (fun k => .ok (rs k)) timeout = .success j t ↔
        (j < timeout ∧ t = pyStrip (rs j) ∧ gateCheckOk (pyStrip (rs j)) = true ∧
          ∀ k, k < j → gateCheckOk (pyStrip (rs k)) = false)) ∧
    ensure_department_not_all demoGateReads 60 = .success 2 "Quality Assurance" := by
  refine ⟨?_, ?_, by decide⟩
  · intro reads timeout j t h
    obtain ⟨hg, raw, hraw, ht⟩ := ensureDeptLoop_success_sound reads 10 timeout 0 0 none j t h
    rw [gateCheckOk, Bool.and_eq_true, bne_iff_ne, Bool.not_eq_true', Bool.eq_false_iff] at hg
    exact ⟨hg.1, Bool.eq_false_iff.mpr hg.2, raw, hraw, ht⟩
  · intro rs timeout j t
    rw [ensure_department_not_all, ensureDeptLoop_allok_iff rs 10 timeout 0 0 none j t]
    constructor
    · rintro ⟨-, h2, h3, h4, h5⟩
      exact ⟨by omega, h3, h4, fun k hk => h5 k (by omega) hk⟩
    · rintro ⟨h1, h2, h3, h4⟩
      exact ⟨by omega, by omega, h2, h3, fun k _ hk => h4 k hk⟩

/-- Witness for C2 at the concrete sequence from the spec example. -/
theorem claim_C2_gate_success_condition_witness :
    "Quality Assurance" ≠ "" ∧ strContains "Quality Assurance" "All" = false ∧
      ∃ raw, demoGateReads 2 = .ok raw ∧ "Quality Assurance" = pyStrip raw :=
  claim_C2_gate_success_condition.1 demoGateReads 60 2 "Quality Assurance" (by decide)

/-- C4: the gate aborts with the fatal lookup error exactly on reaching 10
consecutive read failures (the error carrying that attempt count and the
elapsed time), a successful read resets the consecutive count — so a run in
which every 10-sample window contains a successful read never aborts
fatally — and an all-failing source aborts at the 10th sample (attempt
count 10, 9 seconds elapsed), while a source that succeeds every 10th
sample runs to its timeout instead. -/
theorem claim_C4_gate_failure_tolerance :
    (∀ (reads : Nat → Except Unit String) (timeout n e : Nat),
      ensure_department_not_all reads timeout = .fatalLookup n e →
      n = 10 ∧ 9 ≤ e ∧ e < timeout ∧
        ∀ k, k ≤ e → e < k + 10 → exceptFails (reads k) = true) ∧
    (∀ (reads : Nat → Except Unit String) (timeout : Nat),
      (∀ w, w + 10 ≤ timeout → ∃ k, w ≤ k ∧ k < w + 10 ∧ exceptFails (reads k) = false) →
      ∀ n e, ensure_department_not_all reads timeout ≠ .fatalLookup n e) ∧
    ensure_department_not_all allFailReads 60 = .fatalLookup 10 9 ∧
    ensure_department_not_all nineFailReads 30 = .timeoutFail 30 (some "× All") := by
  have main : ∀ (reads : Nat → Except Unit String) (timeout n e : Nat),
      ensure_department_not_all reads timeout = .fatalLookup n e →
      n = 10 ∧ 9 ≤ e ∧ e < timeout ∧
        ∀ k, k ≤ e → e < k + 10 → exceptFails (reads k) = true := by
    intro reads timeout n e h
    obtain ⟨hn, h2, h3, h4, h5⟩ := ensureDeptLoop_fatal reads 10 timeout 0 0 none n e
      (by omega) (fun k hk1 hk2 => absurd hk2 (by omega)) h
    exact ⟨hn, by omega, by omega, h5⟩
  refine ⟨main, ?_, by decide, by decide⟩
  intro reads timeout hwin n e hcontra
  obtain ⟨-, he9, het, hwindow⟩ := main reads timeout n e hcontra
  obtain ⟨k, hk1, hk2, hkOk⟩ := hwin (e - 9) (by omega)
  have := hwindow k (by omega) (by omega)
  rw [hkOk] at this
  exact Bool.noConfusion this

/-- Witness for C4 at the all-failing read source with timeout 60. -/
theorem claim_C4_gate_failure_tolerance_witness :
    10 = 10 ∧ 9 ≤ 9 ∧ 9 < 60 ∧
      ∀ k, k ≤ 9 → 9 < k + 10 → exceptFails (allFailReads k) = true :=
  claim_C4_gate_failure_tolerance.1 allFailReads 60 10 9 (by decide)

/-! ## Claim theorems: list-stability detector -/

/-- C1: with no department or location criterion (and any threshold of at
least 2, covering both in-repo call sites, thresholds 6 and 3), the detector
reports success only after the sampled card count has stayed at one positive
value for the last `max_stable_checks` consecutive samples; a source whose
cardinality changes on every sample never yields success; a source fixed at
cardinality 4 from the first sample with threshold 3 succeeds exactly at the
3rd sample (index 2), not earlier. -/
theorem claim_C1_stability_no_criteria :
    (∀ (samples : Nat → List JobCard) (maxChecks timeout j : Nat), 2 ≤ maxChecks →
      wait_for_jobs_stable samples none none maxChecks timeout = some j →
      j < timeout ∧ maxChecks ≤ j + 1 ∧ 0 < (samples j).length ∧
        ∀ k, k ≤ j → j < k + maxChecks → (samples k).length = (samples j).length) ∧
    (∀ (samples : Nat → List JobCard) (maxChecks timeout : Nat), 2 ≤ maxChecks →
      (∀ i, (samples i).length ≠ (samples (i + 1)).length) →
      wait_for_jobs_stable samples none none maxChecks timeout = none) ∧
    wait_for_jobs_stable demoSamples4 none none 3 60 = some 2 := by
  have hnc : ∀ (samples : Nat → List JobCard) (maxChecks timeout : Nat),
      wait_for_jobs_stable samples none none maxChecks timeout
        = jobsStableNoCritLoop (fun i => (samples i).length) maxChecks timeout 0 none 0 :=
    fun _ _ _ => rfl
  refine ⟨?_, ?_, by decide⟩
  · intro samples maxChecks timeout j hmc h
    rw [hnc, jobsStableNoCrit_run_iff] at h
    obtain ⟨h1, h2, h3⟩ := h
    obtain ⟨hpos, hstreak⟩ :=
      checksSeqNoCrit_streak (fun i => (samples i).length) j maxChecks hmc h2
    have hle := checksSeqNoCrit_le (fun i => (samples i).length) j
    exact ⟨h1, by omega, hpos, fun k hk1 hk2 => hstreak k hk1 hk2⟩
  · intro samples maxChecks timeout hmc hchg
    cases hrun : wait_for_jobs_stable samples none none maxChecks timeout with
    | none => rfl
    | some j =>
      exfalso
      rw [hnc, jobsStableNoCrit_run_iff] at hrun
      obtain ⟨h1, h2, h3⟩ := hrun
      have hle := checksSeqNoCrit_le (fun i => (samples i).length) j
      have hj1 : 1 ≤ j := by omega
      obtain ⟨hpos, hstreak⟩ :=
        checksSeqNoCrit_streak (fun i => (samples i).length) j maxChecks hmc h2
      have heq := hstreak (j - 1) (by omega) (by omega)
      have hne := hchg (j - 1)
      rw [Nat.sub_add_cancel hj1] at hne
      exact hne heq

/-- Witness for C1 at the constant-cardinality-4 source with threshold 3. -/
theorem claim_C1_stability_no_criteria_witness :
    2 ≤ 3 ∧ (2 < 60 ∧ 3 ≤ 2 + 1 ∧ 0 < (demoSamples4 2).length ∧
      ∀ k, k ≤ 2 → 2 < k + 3 → (demoSamples4 k).length = (demoSamples4 2).length) :=
  ⟨by omega,
    claim_C1_stability_no_criteria.1 demoSamples4 3 60 2 (by omega) (by decide)⟩

/-- C5: with a department and/or location criterion, the detector returns
success at sample `j` exactly when `j` is the first sample within the
timeout at which some sampled card matches (department by substring,
location by exact equality) and the stability counter `checksSeqCrit` —
which increments at every sample whose card count equals the previous
sample's count, whether or not any card matches — has reached the
threshold. -/
theorem claim_C5_stability_with_criteria (samples : Nat → List JobCard)
    (expDept expLoc : Option String) (maxChecks timeout j : Nat)
    (hcrit : (pyTruthy expDept || pyTruthy expLoc) = true) :
    wait_for_jobs_stable samples expDept expLoc maxChecks timeout = some j ↔
      (j < timeout ∧ critSuccessAt samples expDept expLoc maxChecks j ∧
        ∀ k, k < j → ¬ critSuccessAt samples expDept expLoc maxChecks k) := by
  rw [wait_for_jobs_stable_crit_eq samples expDept expLoc maxChecks timeout hcrit,
    jobsStableCrit_run_iff]

/-- Witness for C5: a constant-cardinality-2 source matching nothing until
sample 2, where the counter (which advanced during the non-matching
samples) has already reached the threshold 3 — success exactly at sample 2. -/
theorem claim_C5_stability_with_criteria_witness :
    wait_for_jobs_stable demoCritSamples (some "Quality Assurance")
        (some "Istanbul, Turkiye") 3 60 = some 2 ↔
      (2 < 60 ∧ critSuccessAt demoCritSamples (some "Quality Assurance")
          (some "Istanbul, Turkiye") 3 2 ∧
        ∀ k, k < 2 → ¬ critSuccessAt demoCritSamples (some "Quality Assurance")
          (some "Istanbul, Turkiye") 3 k) :=
  claim_C5_stability_with_criteria demoCritSamples (some "Quality Assurance")
    (some "Istanbul, Turkiye") 3 60 2 (by decide)

/-- C9: in criteria mode a success at sample `j` implies some card of sample
`j` matched the criteria; in particular the sampled collection at `j` is not
empty, even though the stability counter itself can advance over empty
collections in this mode. -/
theorem claim_C9_crit_success_needs_match (samples : Nat → List JobCard)
    (expDept expLoc : Option String) (maxChecks timeout j : Nat)
    (hcrit : (pyTruthy expDept || pyTruthy expLoc) = true)
    (h : wait_for_jobs_stable samples expDept expLoc maxChecks timeout = some j) :
    anyCardMatches expDept expLoc (samples j) = true ∧ samples j ≠ [] := by
  rw [wait_for_jobs_stable_crit_eq samples expDept expLoc maxChecks timeout hcrit,
    jobsStableCrit_run_iff] at h
  obtain ⟨-, ⟨hm, -⟩, -⟩ := h
  refine ⟨hm, ?_⟩
  intro hemp
  rw [hemp, anyCardMatches] at hm
  exact Bool.noConfusion hm

/-- Witness for C9 at the source of the C5 witness. -/
theorem claim_C9_crit_success_needs_match_witness :
    anyCardMatches (some "Quality Assurance") (some "Istanbul, Turkiye")
        (demoCritSamples 2) = true ∧
      demoCritSamples 2 ≠ [] :=
  claim_C9_crit_success_needs_match demoCritSamples (some "Quality Assurance")
    (some "Istanbul, Turkiye") 3 60 2 (by decide) (by decide)

/-! ## Claim theorems: stale-retry wrapper -/

/-- C3: with `max_attempts = 3`, an operation raising
`StaleElementReferenceException` exactly twice and then succeeding makes the
wrapper return the successful result (invoking the operation 3 times); an
operation raising stale on every invocation is invoked exactly 3 times and
the wrapper re-raises the last stale exception rather than swallowing it. -/
theorem claim_C3_retry_on_stale_element :
    (∀ (α : Type) (op : Nat → Except PyExc α) (a : α) (m0 m1 : String),
      op 0 = .error (.stale m0) → op 1 = .error (.stale m1) → op 2 = .ok a →
      retry_on_stale_element 3 op = .ok (some a) ∧ retryCalls 3 op = 3) ∧
    (∀ (α : Type) (op : Nat → Except PyExc α) (ms : Nat → String),
      (∀ i, op i = .error (.stale (ms i))) →
      retry_on_stale_element 3 op = .error (.stale (ms 2)) ∧ retryCalls 3 op = 3) := by
  constructor
  · intro α op a m0 m1 h0 h1 h2
    constructor
    · rw [retry_on_stale_element, retryAttemptLoop, h0]
      norm_num
      rw [retryAttemptLoop, h1]
      norm_num
      rw [retryAttemptLoop, h2]
    · rw [retryCalls, retryCallsLoop, h0]
      norm_num
      rw [retryCallsLoop, h1]
      norm_num
      rw [retryCallsLoop, h2]
      rfl
  · intro α op ms h
    constructor
    · rw [retry_on_stale_element, retryAttemptLoop, h 0]
      norm_num
      rw [retryAttemptLoop, h 1]
      norm_num
      rw [retryAttemptLoop, h 2]
      norm_num
    · rw [retryCalls, retryCallsLoop, h 0]
      norm_num
      rw [retryCallsLoop, h 1]
      norm_num
      rw [retryCallsLoop, h 2]
      norm_num

/-- Witness for C3 at the concrete operations `demoStaleTwiceOp` and an
always-stale operation. -/
theorem claim_C3_retry_on_stale_element_witness :
    (retry_on_stale_element 3 demoStaleTwiceOp = .ok (some 42) ∧
      retryCalls 3 demoStaleTwiceOp = 3) ∧
    (retry_on_stale_element 3 (fun i => (.error (.stale (toString i)) : Except PyExc Nat))
        = .error (.stale "2") ∧
      retryCalls 3 (fun i => (.error (.stale (toString i)) : Except PyExc Nat)) = 3) :=
  ⟨claim_C3_retry_on_stale_element.1 Nat demoStaleTwiceOp 42 "s0" "s1"
      (by decide) (by decide) (by decide),
    claim_C3_retry_on_stale_element.2 Nat _ (fun i => toString i) (fun i => rfl)⟩

/-- C10: the wrapper catches only `StaleElementReferenceException`: if the
operation raises any other exception at its `j`-th invocation (earlier
invocations having raised stale), that exception propagates at once — the
wrapper's result is that exception, the operation is invoked exactly `j + 1`
times, and no backoff sleep runs after the non-stale raise. -/
theorem claim_C10_retry_propagates_other_exceptions
    (α : Type) (op : Nat → Except PyExc α) (ms : Nat → String) (m : String)
    (maxAttempts j : Nat) (hj : j < maxAttempts)
    (hstale : ∀ i, i < j → op i = .error (.stale (ms i)))
    (hother : op j = .error (.other m)) :
    retry_on_stale_element maxAttempts op = .error (.other m) ∧
    retryCalls maxAttempts op = j + 1 ∧
    retrySleeps maxAttempts op = j := by
  obtain ⟨h1, h2, h3⟩ := retryAttemptLoop_other op maxAttempts ms m maxAttempts 0 j
    (by omega) (by omega) hj (fun i _ hi => hstale i hi) hother
  exact ⟨h1, by rw [retryCalls, h2]; omega, by rw [retrySleeps, h3]; omega⟩

/-- Witness for C10 at `demoOtherOp` (stale once, then a non-stale raise at
invocation 1), with `max_attempts = 3`. -/
theorem claim_C10_retry_propagates_other_exceptions_witness :
    retry_on_stale_element 3 demoOtherOp = .error (.other "boom") ∧
    retryCalls 3 demoOtherOp = 1 + 1 ∧
    retrySleeps 3 demoOtherOp = 1 :=
  claim_C10_retry_propagates_other_exceptions Nat demoOtherOp (fun _ => "x") "boom" 3 1
    (by omega) (fun i hi => by interval_cases i; rfl) (by decide)

/-! ## Claim theorems: locator facade -/

/-- C7 counterexample: on a driver that never finds any element, the
`find_elements` facade fails with Selenium's `TimeoutException`, which is not
the NotFound type (`NoSuchElementException`) — refuting the claim that every
facade lookup converts its timeout into a NotFound-typed error. -/
theorem claim_C7_counterexample :
    find_elements ".position-list-item" (fun _ => []) 15 = .error .timeoutExc ∧
    isNoSuchElementErr (find_elements ".position-list-item" (fun _ => []) 15) = false := by
  constructor
  · decide
  · decide

/-- C7 (amended): on timeout `find_element` fails with
`NoSuchElementException` whose message carries the locator (not the awaited
condition), while `find_elements` propagates the raw `TimeoutException`;
neither returns a null or empty handle silently — a successful `find_element`
returns an element some poll actually delivered, and a successful
`find_elements` returns a non-empty list. -/
theorem claim_C7_facade_errors :
    (∀ (locator : String) (polls : Nat → Option Element) (timeout : Nat) (w : SelError),
      find_element locator polls timeout = .error w →
      w = .noSuchElement ("Element not found: " ++ locator)) ∧
    (∀ (locator : String) (polls : Nat → Option Element) (timeout : Nat) (e : Element),
      find_element locator polls timeout = .ok e → ∃ k, polls k = some e) ∧
    (∀ (locator : String) (polls : Nat → List Element) (timeout : Nat) (l : List Element),
      find_elements locator polls timeout = .ok l → l ≠ []) ∧
    (∀ (locator : String) (polls : Nat → List Element) (timeout : Nat) (w : SelError),
      find_elements locator polls timeout = .error w → w = .timeoutExc) := by
  refine ⟨?_, ?_, ?_, ?_⟩
  · intro locator polls timeout w h
    rw [find_element] at h
    cases hu : untilPresent polls timeout 0 with
    | ok e => rw [hu] at h; exact absurd h (by simp)
    | error w' =>
      have hw' := untilPresent_error polls timeout 0 w' hu
      subst hw'
      rw [hu] at h
      exact (Except.error.inj h).symm
  · intro locator polls timeout e h
    rw [find_element] at h
    cases hu : untilPresent polls timeout 0 with
    | ok e' =>
      rw [hu] at h
      have h' : (Except.ok e' : Except SelError Element) = .ok e := h
      rw [← Except.ok.inj h']
      exact untilPresent_ok polls timeout 0 e' hu
    | error w' =>
      have hw' := untilPresent_error polls timeout 0 w' hu
      subst hw'
      rw [hu] at h
      exact absurd h (by simp)
  · intro locator polls timeout l h
    exact untilAllPresent_ok polls timeout 0 l h
  · intro locator polls timeout w h
    exact untilAllPresent_error polls timeout 0 w h

/-- Witness for C7 (amended) at concrete drivers: one that never finds
anything and one that always finds element 7. -/
theorem claim_C7_facade_errors_witness :
    SelError.noSuchElement "Element not found: jobs-list"
      = SelError.noSuchElement ("Element not found: " ++ "jobs-list") ∧
    (∃ k, (fun _ : Nat => some (Element.mk 7)) k = some (Element.mk 7)) ∧
    ([Element.mk 7] : List Element) ≠ [] ∧
    SelError.timeoutExc = SelError.timeoutExc :=
  ⟨claim_C7_facade_errors.1 "jobs-list" (fun _ => none) 15 _ (by decide),
    claim_C7_facade_errors.2.1 "jobs-list" (fun _ => some (Element.mk 7)) 15 (Element.mk 7)
      (by decide),
    claim_C7_facade_errors.2.2.1 "jobs-list" (fun _ => [Element.mk 7]) 15 [Element.mk 7]
      (by decide),
    claim_C7_facade_errors.2.2.2 "jobs-list" (fun _ => []) 15 _ (by decide)⟩

/-! ## Claim theorems: filter-action structure -/

/-- C6 counterexample: `filter_by_department("Quality Assurance")` performs
no invocation of the department auto-selection gate at all, and its very
first interaction is the click on the department filter control — refuting
the claim that both filter actions re-invoke the gate before interacting
with their filter control. -/
theorem claim_C6_counterexample :
    ((filter_by_department_trace "Quality Assurance").all fun s => !(isEnsureGate s)) = true ∧
    (filter_by_department_trace "Quality Assurance").head?
      = some (UIStep.clickStep DEPARTMENT_FILTER) := by
  constructor
  · decide
  · decide

/-- C6 (amended): `filter_by_location` re-invokes the department
auto-selection gate with the short timeout 10 as its first action, before
any interaction with the location filter control; `filter_by_department`
does not invoke the gate at all. -/
theorem claim_C6_gate_reinvocation (location expected_department department : String) :
    (filter_by_location_trace location expected_department).head?
      = some (UIStep.ensureDeptNotAll 10) ∧
    ((filter_by_department_trace department).all fun s => !(isEnsureGate s)) = true :=
  ⟨rfl, rfl⟩

/-- C8: in both filter actions the option activation dispatches, in order, a
mousedown, a mouseup, and a click on the option node, and the only steps
between the activation and the method's return are the waits for at least
one job card to be present and clickable and the stability wait — so the
operation does not return before a rendered job card is present and
clickable after the selection. -/
theorem claim_C8_activation_sequence (location expected_department department : String) :
    (filter_by_location_trace location expected_department).drop 11
      = [.dispatchMouseDown, .dispatchMouseUp, .dispatchClick,
         .waitPresentAll JOB_ITEMS, .waitClickable JOB_ITEMS,
         .waitJobsStable (some expected_department) (some location) 3] ∧
    (filter_by_department_trace department).drop 6
      = [.dispatchMouseDown, .dispatchMouseUp, .dispatchClick,
         .waitPresentAll JOB_ITEMS, .waitClickable JOB_ITEMS,
         .waitJobsStable (some department) none 2] :=
  ⟨rfl, rfl⟩

end InsiderTestOps
